import Mathlib

/-!
Shallow embedding of `epgstation.py` (an EPGStation → Discord webhook
notification adapter) and verification of its specified behaviour.

Modelling conventions:
- The process environment is a map `String → Option String` (`os.environ.get`).
- Python `int(...)` on a string is `pyInt`; it fails (`Except.error ()`) on
  non-numeric text, mirroring `ValueError`.
- A Python `datetime` produced by `datetime.fromtimestamp` is represented by
  its epoch-second value; the ambient local timezone of the host is made
  explicit as an offset parameter `tz` (seconds east of UTC) and is applied
  when rendering with `strftime` (`readable_datetime`).
- A Python `timedelta` is represented by its whole-second count.
- A raised Python exception is `Except.error ()`; code paths after a raise are
  never reached, matching the `do`-notation bind on `Except`.
- The `notifier` decorator's wrapper (build payload, then look up
  `config["webhook_url"]`, then POST) is `notifier_run`; the outbound HTTP
  call itself is not modelled beyond the fact that it happens (`Outcome.posted`).
-/

/-- Environment snapshot: `os.environ.get key` . -/
abbrev EnvMap := String → Option String

/-- Python `datetime` value as produced by `datetime.fromtimestamp`, carried as
epoch seconds (rendering to local civil time happens in `readable_datetime`). -/
structure datetime where
  epochSeconds : Int
deriving DecidableEq, Repr

/-- Python `timedelta` restricted to whole seconds, as built by
`timedelta(seconds=...)` in the source. -/
structure timedelta where
  seconds : Int
deriving DecidableEq, Repr

/-- ASCII decimal digit test. -/
def isAsciiDigit (c : Char) : Bool := '0' ≤ c && c ≤ '9'

/-- Digits of a Python integer literal after the first: digits with single
underscores allowed between digits (Python `int` accepts `1_000`). -/
def digitsTailOk : List Char → Bool
  | [] => true
  | ['_'] => false
  | '_' :: c :: cs => isAsciiDigit c && digitsTailOk cs
  | c :: cs => isAsciiDigit c && digitsTailOk cs

/-- Nonempty digit run (first char must be a digit). -/
def digitsOk : List Char → Bool
  | [] => false
  | c :: cs => isAsciiDigit c && digitsTailOk cs

/-- Value of a digit run, ignoring underscore separators. -/
def digitsVal (cs : List Char) : Nat :=
  cs.foldl (fun acc c => if c = '_' then acc else acc * 10 + (c.toNat - 48)) 0

/-- ASCII whitespace as stripped by Python `int()` around a numeric literal. -/
def isPyWhitespace (c : Char) : Bool :=
  c = ' ' || c = '\t' || c = '\n' || c = '\r' || c = '\x0b' || c = '\x0c'

/-- Leading and trailing whitespace removed from a character list. -/
def stripWs (cs : List Char) : List Char :=
  ((cs.dropWhile isPyWhitespace).reverse.dropWhile isPyWhitespace).reverse

/-- Models Python `int(s)` on a decimal string: optional surrounding
whitespace, optional sign, then digits. Raises `ValueError`
(`Except.error ()`) on anything else. -/
def pyInt (s : String) : Except Unit Int :=
  match stripWs s.data with
  | '+' :: rest => if digitsOk rest then .ok (digitsVal rest) else .error ()
  | '-' :: rest => if digitsOk rest then .ok (-(digitsVal rest : Int)) else .error ()
  | l => if digitsOk l then .ok (digitsVal l) else .error ()

/-- Models Python format `{n:0wd}`: decimal rendering zero-padded to width `w`
(the sign, when present, counts toward the width and precedes the zeros). -/
def zfill (w : Nat) (n : Int) : String :=
  if n < 0 then
    let s := Nat.repr n.natAbs
    if s.length + 1 < w then "-" ++ String.mk (List.replicate (w - 1 - s.length) '0') ++ s
    else "-" ++ s
  else
    let s := Nat.repr n.toNat
    if s.length < w then String.mk (List.replicate (w - s.length) '0') ++ s
    else s

/-- `readable_timedelta` from the source: `H:MM:SS` with `//` floor division
and `%` (which on nonnegative spans agree with `fdiv`/`fmod`). -/
def readable_timedelta (td : timedelta) : String :=
  let seconds := td.seconds
  let minutes := seconds.fdiv 60
  let hours := minutes.fdiv 60
  toString hours ++ ":" ++ zfill 2 (minutes.fmod 60) ++ ":" ++ zfill 2 (seconds.fmod 60)

/-- Proleptic Gregorian civil date (year, month, day) from days since
1970-01-01, the standard era-based algorithm used by C/Python date libraries. -/
def civilFromDays (z0 : Int) : Int × Int × Int :=
  let z := z0 + 719468
  let era := z.fdiv 146097
  let doe := z - era * 146097
  let yoe := (doe - doe.fdiv 1460 + doe.fdiv 36524 - doe.fdiv 146096).fdiv 365
  let y := yoe + era * 400
  let doy := doe - (365 * yoe + yoe.fdiv 4 - yoe.fdiv 100)
  let mp := (5 * doy + 2).fdiv 153
  let d := doy - (153 * mp + 2).fdiv 5 + 1
  let m := mp + (if mp < 10 then 3 else -9)
  (if m ≤ 2 then y + 1 else y, m, d)

/-- `readable_datetime` from the source: `dt.strftime("%Y-%m-%d %H:%M:%S")`
of the local civil time, with the host timezone offset `tz` made explicit. -/
def readable_datetime (tz : Int) (dt : datetime) : String :=
  let t := dt.epochSeconds + tz
  let days := t.fdiv 86400
  let sod := t.fmod 86400
  let ymd := civilFromDays days
  zfill 4 ymd.1 ++ "-" ++ zfill 2 ymd.2.1 ++ "-" ++ zfill 2 ymd.2.2 ++ " " ++
    zfill 2 (sod.fdiv 3600) ++ ":" ++ zfill 2 ((sod.fdiv 60).fmod 60) ++ ":" ++
    zfill 2 (sod.fmod 60)

/-- Comma insertion into a reversed digit list: a comma after every third
character from the (original) right end. -/
def insertCommasRev : List Char → List Char
  | a :: b :: c :: d :: rest => a :: b :: c :: ',' :: insertCommasRev (d :: rest)
  | l => l

/-- Models Python format `{n:,}`: decimal rendering with thousands separators. -/
def pyThousands (n : Int) : String :=
  let s := Nat.repr n.natAbs
  let grouped := String.mk (insertCommasRev s.data.reverse).reverse
  if n < 0 then "-" ++ grouped else grouped

/-- `try_comma_int` from the source: `None` renders as the fallback, otherwise
a thousands-grouped decimal. -/
def try_comma_int (number : Option Int) (fallback : String) : String :=
  match number with
  | none => fallback
  | some n => pyThousands n

/-- `get_envvar` from the source: absent key or raw value `"null"` decode to
`none`; otherwise the cast function is applied (and may raise). The source's
`castfn=None` (pass-through) case is the `strCast` identity cast here. -/
def get_envvar {α : Type} (env : EnvMap) (key : String) (castfn : String → Except Unit α) :
    Except Unit (Option α) :=
  match env key with
  | none => Except.ok none
  | some raw => if raw = "null" then Except.ok none else (castfn raw).map some

/-- Pass-through cast for string-valued variables (source: `castfn=None`). -/
def strCast : String → Except Unit String := fun raw => Except.ok raw

/-- `unixtime_str_to_datetime` from the source:
`datetime.fromtimestamp(int(s) // 1000)` (floor division by 1000). -/
def unixtime_str_to_datetime (s : String) : Except Unit datetime :=
  (pyInt s).map fun n => ⟨n.fdiv 1000⟩

/-- `milliseconds_str_to_timedelta` from the source:
`timedelta(seconds=int(s) // 1000)`. -/
def milliseconds_str_to_timedelta (s : String) : Except Unit timedelta :=
  (pyInt s).map fun n => ⟨n.fdiv 1000⟩

/-- The decoded environment snapshot, one field per key of the source's
`envvars_castfn` table. -/
structure EnvVars where
  programid : Option Int
  recordedid : Option Int
  channeltype : Option String
  channelid : Option String
  channelname : Option String
  startat : Option datetime
  endat : Option datetime
  duration : Option timedelta
  name : Option String
  description : Option String
  extended : Option String
  recpath : Option String
  logpath : Option String
  error_cnt : Option Int
  drop_cnt : Option Int
  scrambling_cnt : Option Int
deriving DecidableEq, Repr

/-- `retrieve_envvars` from the source: the dict comprehension over
`envvars_castfn`, in dict order; any raising cast aborts the whole decode. -/
def retrieve_envvars (env : EnvMap) : Except Unit EnvVars := do
  let programid ← get_envvar env "PROGRAMID" pyInt
  let recordedid ← get_envvar env "RECORDEDID" pyInt
  let channeltype ← get_envvar env "CHANNELTYPE" strCast
  let channelid ← get_envvar env "CHANNELID" strCast
  let channelname ← get_envvar env "CHANNELNAME" strCast
  let startat ← get_envvar env "STARTAT" unixtime_str_to_datetime
  let endat ← get_envvar env "ENDAT" unixtime_str_to_datetime
  let duration ← get_envvar env "DURATION" milliseconds_str_to_timedelta
  let name ← get_envvar env "NAME" strCast
  let description ← get_envvar env "DESCRIPTION" strCast
  let extended ← get_envvar env "EXTENDED" strCast
  let recpath ← get_envvar env "RECPATH" strCast
  let logpath ← get_envvar env "LOGPATH" strCast
  let error_cnt ← get_envvar env "ERROR_CNT" pyInt
  let drop_cnt ← get_envvar env "DROP_CNT" pyInt
  let scrambling_cnt ← get_envvar env "SCRAMBLING_CNT" pyInt
  Except.ok ⟨programid, recordedid, channeltype, channelid, channelname, startat, endat,
    duration, name, description, extended, recpath, logpath, error_cnt, drop_cnt, scrambling_cnt⟩

/-- One `{"name": ..., "value": ...}` entry of the embed's `fields` array. -/
structure PayloadField where
  name : String
  value : String
deriving DecidableEq, Repr

/-- The single embed object of the outbound payload. -/
structure Embed where
  title : String
  description : Option String
  fields : List PayloadField
  color : Option Int
deriving DecidableEq, Repr

/-- The outbound webhook payload: `{"embeds": [embed]}`. -/
structure Payload where
  embeds : List Embed
deriving DecidableEq, Repr

/-- Python `f"{x}"` on an `Optional[str]`: `None` renders as `"None"`. -/
def pyStr : Option String → String
  | none => "None"
  | some s => s

/-- `build_payload` from the source. All call sites pass `envvars=None`, so the
environment is always decoded here. Dereferencing an absent `STARTAT`,
`ENDAT` or `DURATION` raises (`None.strftime` / `None.total_seconds`),
modelled by the catch-all match arm. -/
def build_payload (tz : Int) (message : String) (color : Option Int) (artifacts : Bool)
    (env : EnvMap) : Except Unit Payload := do
  let envvars ← retrieve_envvars env
  match envvars.startat, envvars.endat, envvars.duration with
  | some startat, some endat, some duration =>
    let channelValue := pyStr envvars.channeltype ++ ": " ++ pyStr envvars.channelid ++ " " ++
      (match envvars.channelname with | some s => s | none => "")
    let windowValue := readable_datetime tz startat ++ " ～ " ++ readable_datetime tz endat ++
      "\n" ++ "`Duration` " ++ readable_timedelta duration
    let baseFields : List PayloadField := [⟨"チャンネル", channelValue⟩, ⟨"放送時間帯", windowValue⟩]
    let artifactFields : List PayloadField :=
      [⟨"録画ファイル", "```" ++ pyStr envvars.recpath ++ "```"⟩,
       ⟨"ログファイル",
         match envvars.logpath with
         | some p => if p = "" then "None" else "```" ++ p ++ "```"
         | none => "None"⟩,
       ⟨"エラー/ドロップ/スクランブル",
         "`Error` " ++ try_comma_int envvars.error_cnt "N/A" ++
         "`Drop` " ++ try_comma_int envvars.drop_cnt "N/A" ++
         "`Scramble` " ++ try_comma_int envvars.scrambling_cnt "N/A"⟩]
    Except.ok ⟨[⟨message ++ ": " ++ pyStr envvars.name, envvars.description,
      baseFields ++ (if artifacts then artifactFields else []), color⟩]⟩
  | _, _, _ => Except.error ()

/-- The eight `@notifier`-decorated builder functions, in registration order. -/
inductive EventKind where
  | reserve_new_addition
  | reserve_update
  | reserve_deleted
  | recording_pre_start
  | recording_prep_rec_failed
  | recording_start
  | recording_finish
  | recording_failed
deriving DecidableEq, Repr

/-- The `message` argument each builder passes to `build_payload`. -/
def eventMessage : EventKind → String
  | .reserve_new_addition => ":bell: 録画予約追加"
  | .reserve_update => ":bell: 録画予約更新"
  | .reserve_deleted => ":no_bell: 録画予約削除"
  | .recording_pre_start => ":movie_camera: 録画準備開始"
  | .recording_prep_rec_failed => ":no_entry: 録画準備失敗"
  | .recording_start => ":record_button: 録画開始"
  | .recording_finish => ":stop_button: 録画終了"
  | .recording_failed => ":no_entry: 録画失敗"

/-- The `color` argument each builder passes to `build_payload`. -/
def eventColor : EventKind → Option Int
  | .reserve_new_addition => none
  | .reserve_update => none
  | .reserve_deleted => none
  | .recording_pre_start => some 0xFFFFCC
  | .recording_prep_rec_failed => some 0xFF0000
  | .recording_start => some 0xFFFFCC
  | .recording_finish => some 0x00FF00
  | .recording_failed => some 0xFF0000

/-- The `artifacts` argument each builder passes to `build_payload`. -/
def eventArtifacts : EventKind → Bool
  | .recording_finish => true
  | .recording_failed => true
  | _ => false

/-- `fn.__name__` of each builder function (this is the string the dispatcher
registers as the subparser name). -/
def eventName : EventKind → String
  | .reserve_new_addition => "reserve_new_addition"
  | .reserve_update => "reserve_update"
  | .reserve_deleted => "reserve_deleted"
  | .recording_pre_start => "recording_pre_start"
  | .recording_prep_rec_failed => "recording_prep_rec_failed"
  | .recording_start => "recording_start"
  | .recording_finish => "recording_finish"
  | .recording_failed => "recording_failed"

/-- The `notifiers` registration list from the source:
`notifiers.append((fn.__name__, wrapper))` in decoration order. -/
def notifiers : List (String × EventKind) :=
  [("reserve_new_addition", .reserve_new_addition),
   ("reserve_update", .reserve_update),
   ("reserve_deleted", .reserve_deleted),
   ("recording_pre_start", .recording_pre_start),
   ("recording_prep_rec_failed", .recording_prep_rec_failed),
   ("recording_start", .recording_start),
   ("recording_finish", .recording_finish),
   ("recording_failed", .recording_failed)]

/-- The subcommand names the CLI accepts: one subparser per registered
notifier, named by `fn.__name__`. -/
def subcommand_names : List String := notifiers.map Prod.fst

/-- The body of a decorated builder function: it always returns
`build_payload(...)`, never `None`; the `Option` layer records the wrapper's
reserved "send nothing" case. -/
def notifier_fn (tz : Int) (k : EventKind) (env : EnvMap) : Except Unit (Option Payload) :=
  (build_payload tz (eventMessage k) (eventColor k) (eventArtifacts k) env).map some

/-- Observable outcome of one invocation of a notifier wrapper. -/
inductive Outcome where
  | posted (url : String) (payload : Payload)
  | skipped
  | envDecodeError
  | missingWebhookUrl
deriving DecidableEq, Repr

/-- The `notifier` wrapper from the source, in its exact order: first
`payload = fn(args)` (which decodes the environment and may raise), then the
`payload is None` check, then `args.config["webhook_url"]` (KeyError when the
config object lacks the key), then the POST. -/
def notifier_run (tz : Int) (config : String → Option String) (env : EnvMap)
    (k : EventKind) : Outcome :=
  match notifier_fn tz k env with
  | .error _ => .envDecodeError
  | .ok none => .skipped
  | .ok (some payload) =>
    match config "webhook_url" with
    | none => .missingWebhookUrl
    | some url => .posted url payload

/-- Whether an outcome is an uncaught exception, which CPython turns into a
non-zero exit status. -/
def outcomeNonzeroExit : Outcome → Bool
  | .envDecodeError => true
  | .missingWebhookUrl => true
  | _ => false

/-- The integer-valued environment variables (cast `int` in `envvars_castfn`). -/
def int_env_keys : List String :=
  ["PROGRAMID", "RECORDEDID", "ERROR_CNT", "DROP_CNT", "SCRAMBLING_CNT"]

/-- All numeric environment variables: integer, timestamp and duration fields,
whose casts all parse the raw text with Python `int`. -/
def numeric_env_keys : List String :=
  ["PROGRAMID", "RECORDEDID", "STARTAT", "ENDAT", "DURATION",
   "ERROR_CNT", "DROP_CNT", "SCRAMBLING_CNT"]

/-- Sample environment for the broadcast-window scenario of the spec. -/
def envW : EnvMap := fun key =>
  if key = "NAME" then some "Foo"
  else if key = "CHANNELTYPE" then some "GR"
  else if key = "CHANNELID" then some "1"
  else if key = "STARTAT" then some "1700000000000"
  else if key = "ENDAT" then some "1700003600000"
  else if key = "DURATION" then some "3600000"
  else none

/-- Sample environment with the window variables set but no `NAME`. -/
def env_noname : EnvMap := fun key =>
  if key = "STARTAT" then some "1700000000000"
  else if key = "ENDAT" then some "1700003600000"
  else if key = "DURATION" then some "3600000"
  else none

/-- Concrete payload produced for `recording_finish` on `envW` (UTC host). -/
def payloadFinishW : Payload :=
  (build_payload 0 (eventMessage .recording_finish) (eventColor .recording_finish)
    (eventArtifacts .recording_finish) envW).toOption.getD ⟨[]⟩

/-- Concrete payload produced for `recording_start` on `envW` (UTC host). -/
def payloadStartW : Payload :=
  (build_payload 0 (eventMessage .recording_start) (eventColor .recording_start)
    (eventArtifacts .recording_start) envW).toOption.getD ⟨[]⟩

/-- Concrete payload produced for `recording_start` on `env_noname` (UTC host). -/
def payloadNoNameW : Payload :=
  (build_payload 0 (eventMessage .recording_start) (eventColor .recording_start)
    (eventArtifacts .recording_start) env_noname).toOption.getD ⟨[]⟩

/-- Inversion for a successful `Except` bind. -/
theorem except_bind_ok {α β : Type} (x : Except Unit α) (f : α → Except Unit β) (b : β)
    (h : x >>= f = Except.ok b) : ∃ a, x = Except.ok a ∧ f a = Except.ok b := by
  cases x with
  | error e => exact absurd h (by simp [Bind.bind, Except.bind])
  | ok a => exact ⟨a, rfl, h⟩

/-- An absent or `"null"`-valued variable decodes to `none` under any cast. -/
theorem get_envvar_absent {α : Type} (env : EnvMap) (key : String)
    (castfn : String → Except Unit α) (h : env key = none ∨ env key = some "null") :
    get_envvar env key castfn = Except.ok none := by
  rcases h with h | h <;> simp [get_envvar, h]

/-- A present, non-`"null"` variable whose cast raises makes `get_envvar` raise. -/
theorem get_envvar_cast_error {α : Type} (env : EnvMap) (key : String)
    (castfn : String → Except Unit α) (s : String) (h : env key = some s)
    (hn : s ≠ "null") (he : castfn s = Except.error ()) :
    get_envvar env key castfn = Except.error () := by
  simp [get_envvar, h, hn, he, Except.map]

/-- Inversion of a successful environment decode: every per-variable
`get_envvar` succeeded and produced the corresponding record field. -/
theorem retrieve_envvars_ok_inv (env : EnvMap) (ev : EnvVars)
    (h : retrieve_envvars env = Except.ok ev) :
    get_envvar env "PROGRAMID" pyInt = Except.ok ev.programid ∧
    get_envvar env "RECORDEDID" pyInt = Except.ok ev.recordedid ∧
    get_envvar env "CHANNELTYPE" strCast = Except.ok ev.channeltype ∧
    get_envvar env "CHANNELID" strCast = Except.ok ev.channelid ∧
    get_envvar env "CHANNELNAME" strCast = Except.ok ev.channelname ∧
    get_envvar env "STARTAT" unixtime_str_to_datetime = Except.ok ev.startat ∧
    get_envvar env "ENDAT" unixtime_str_to_datetime = Except.ok ev.endat ∧
    get_envvar env "DURATION" milliseconds_str_to_timedelta = Except.ok ev.duration ∧
    get_envvar env "NAME" strCast = Except.ok ev.name ∧
    get_envvar env "DESCRIPTION" strCast = Except.ok ev.description ∧
    get_envvar env "EXTENDED" strCast = Except.ok ev.extended ∧
    get_envvar env "RECPATH" strCast = Except.ok ev.recpath ∧
    get_envvar env "LOGPATH" strCast = Except.ok ev.logpath ∧
    get_envvar env "ERROR_CNT" pyInt = Except.ok ev.error_cnt ∧
    get_envvar env "DROP_CNT" pyInt = Except.ok ev.drop_cnt ∧
    get_envvar env "SCRAMBLING_CNT" pyInt = Except.ok ev.scrambling_cnt := by
  unfold retrieve_envvars at h
  obtain ⟨a1, h1, h⟩ := except_bind_ok _ _ _ h
  obtain ⟨a2, h2, h⟩ := except_bind_ok _ _ _ h
  obtain ⟨a3, h3, h⟩ := except_bind_ok _ _ _ h
  obtain ⟨a4, h4, h⟩ := except_bind_ok _ _ _ h
  obtain ⟨a5, h5, h⟩ := except_bind_ok _ _ _ h
  obtain ⟨a6, h6, h⟩ := except_bind_ok _ _ _ h
  obtain ⟨a7, h7, h⟩ := except_bind_ok _ _ _ h
  obtain ⟨a8, h8, h⟩ := except_bind_ok _ _ _ h
  obtain ⟨a9, h9, h⟩ := except_bind_ok _ _ _ h
  obtain ⟨a10, h10, h⟩ := except_bind_ok _ _ _ h
  obtain ⟨a11, h11, h⟩ := except_bind_ok _ _ _ h
  obtain ⟨a12, h12, h⟩ := except_bind_ok _ _ _ h
  obtain ⟨a13, h13, h⟩ := except_bind_ok _ _ _ h
  obtain ⟨a14, h14, h⟩ := except_bind_ok _ _ _ h
  obtain ⟨a15, h15, h⟩ := except_bind_ok _ _ _ h
  obtain ⟨a16, h16, h⟩ := except_bind_ok _ _ _ h
  injection h with h
  subst h
  exact ⟨h1, h2, h3, h4, h5, h6, h7, h8, h9, h10, h11, h12, h13, h14, h15, h16⟩

/-- Full characterization of a successful `build_payload`: the environment
decoded, the three window variables were present, and the payload is the
single embed assembled from the decoded record. -/
theorem build_payload_ok_inv (tz : Int) (message : String) (color : Option Int)
    (artifacts : Bool) (env : EnvMap) (p : Payload)
    (h : build_payload tz message color artifacts env = Except.ok p) :
    ∃ ev st en du, retrieve_envvars env = Except.ok ev ∧
      ev.startat = some st ∧ ev.endat = some en ∧ ev.duration = some du ∧
      p = ⟨[⟨message ++ ": " ++ pyStr ev.name, ev.description,
        [⟨"チャンネル", pyStr ev.channeltype ++ ": " ++ pyStr ev.channelid ++ " " ++
            (match ev.channelname with | some s => s | none => "")⟩,
         ⟨"放送時間帯", readable_datetime tz st ++ " ～ " ++ readable_datetime tz en ++
            "\n" ++ "`Duration` " ++ readable_timedelta du⟩] ++
        (if artifacts then
          [⟨"録画ファイル", "```" ++ pyStr ev.recpath ++ "```"⟩,
           ⟨"ログファイル",
             match ev.logpath with
             | some q => if q = "" then "None" else "```" ++ q ++ "```"
             | none => "None"⟩,
           ⟨"エラー/ドロップ/スクランブル",
             "`Error` " ++ try_comma_int ev.error_cnt "N/A" ++
             "`Drop` " ++ try_comma_int ev.drop_cnt "N/A" ++
             "`Scramble` " ++ try_comma_int ev.scrambling_cnt "N/A"⟩]
         else []), color⟩]⟩ := by
  unfold build_payload at h
  obtain ⟨ev, hev, h⟩ := except_bind_ok _ _ _ h
  rcases hst : ev.startat with _ | st <;> rw [hst] at h
  · exact absurd h (by simp)
  rcases hen : ev.endat with _ | en <;> rw [hen] at h
  · exact absurd h (by simp)
  rcases hdu : ev.duration with _ | du <;> rw [hdu] at h
  · exact absurd h (by simp)
  injection h with h
  exact ⟨ev, st, en, du, hev, hst, hen, hdu, h.symm⟩

/-- A failed environment decode makes `build_payload` fail. -/
theorem build_payload_error_of_retrieve (tz : Int) (message : String) (color : Option Int)
    (artifacts : Bool) (env : EnvMap) (h : retrieve_envvars env = Except.error ()) :
    build_payload tz message color artifacts env = Except.error () := by
  unfold build_payload
  rw [h]
  rfl

/-- A failed `build_payload` surfaces as the env-decode failure outcome of the
wrapper; in particular nothing is posted. -/
theorem notifier_run_of_build_error (tz : Int) (config : String → Option String)
    (env : EnvMap) (k : EventKind)
    (h : build_payload tz (eventMessage k) (eventColor k) (eventArtifacts k) env =
      Except.error ()) :
    notifier_run tz config env k = Outcome.envDecodeError := by
  unfold notifier_run notifier_fn
  rw [h]
  rfl

/-- A malformed numeric variable (present, not `"null"`, not Python-int
parsable) makes the whole environment decode fail. -/
theorem retrieve_envvars_error_of_numeric (env : EnvMap) (key : String) (s : String)
    (hk : key ∈ numeric_env_keys) (he : env key = some s) (hn : s ≠ "null")
    (hp : pyInt s = Except.error ()) : retrieve_envvars env = Except.error () := by
  cases hr : retrieve_envvars env with
  | error e => cases e; rfl
  | ok ev =>
    exfalso
    obtain ⟨h1, h2, _, _, _, h6, h7, h8, _, _, _, _, _, h14, h15, h16⟩ :=
      retrieve_envvars_ok_inv env ev hr
    have hdt : unixtime_str_to_datetime s = Except.error () := by
      simp [unixtime_str_to_datetime, hp, Except.map]
    have htd : milliseconds_str_to_timedelta s = Except.error () := by
      simp [milliseconds_str_to_timedelta, hp, Except.map]
    simp only [numeric_env_keys, List.mem_cons, List.not_mem_nil, or_false] at hk
    rcases hk with rfl | rfl | rfl | rfl | rfl | rfl | rfl | rfl
    · rw [get_envvar_cast_error env _ pyInt s he hn hp] at h1; exact Except.noConfusion h1
    · rw [get_envvar_cast_error env _ pyInt s he hn hp] at h2; exact Except.noConfusion h2
    · rw [get_envvar_cast_error env _ unixtime_str_to_datetime s he hn hdt] at h6
      exact Except.noConfusion h6
    · rw [get_envvar_cast_error env _ unixtime_str_to_datetime s he hn hdt] at h7
      exact Except.noConfusion h7
    · rw [get_envvar_cast_error env _ milliseconds_str_to_timedelta s he hn htd] at h8
      exact Except.noConfusion h8
    · rw [get_envvar_cast_error env _ pyInt s he hn hp] at h14; exact Except.noConfusion h14
    · rw [get_envvar_cast_error env _ pyInt s he hn hp] at h15; exact Except.noConfusion h15
    · rw [get_envvar_cast_error env _ pyInt s he hn hp] at h16; exact Except.noConfusion h16

/-- A two-wide zero-padded rendering of a value in `[0, 60)` is exactly two
characters. -/
theorem zfill2_length (m : Int) (h0 : 0 ≤ m) (h60 : m < 60) : (zfill 2 m).length = 2 := by
  interval_cases m <;> rfl

/-- Claim C2 counterexample: the CLI accepts the underscore name
`reserve_new_addition` (taken from `fn.__name__`), and the hyphenated name
`reserve-new-addition` asserted by the claim is not an accepted subcommand. -/
theorem C2_counterexample :
    "reserve-new-addition" ∉ subcommand_names ∧
    "reserve_new_addition" ∈ subcommand_names := by
  decide

/-- Claim C2 (amended): the required positional subcommand is exactly one of
the eight underscore names `reserve_new_addition`, ..., `recording_failed`
(the builders' `__name__`s), each selecting the corresponding builder. -/
theorem C2_theorem :
    subcommand_names =
      ["reserve_new_addition", "reserve_update", "reserve_deleted", "recording_pre_start",
       "recording_prep_rec_failed", "recording_start", "recording_finish",
       "recording_failed"] ∧
    ∀ k : EventKind, (eventName k, k) ∈ notifiers := by
  refine ⟨rfl, ?_⟩
  intro k
  cases k <;> decide

/-- Claim C3: for the integer-valued environment variables, absence or the
literal `"null"` decodes to the explicit absent value `none`, never to a
present integer (in particular never zero). -/
theorem C3_theorem : ∀ (env : EnvMap) (key : String), key ∈ int_env_keys →
    (env key = none ∨ env key = some "null") →
    get_envvar env key pyInt = Except.ok none ∧
    ∀ n : Int, get_envvar env key pyInt ≠ Except.ok (some n) := by
  intro env key _ h
  refine ⟨get_envvar_absent env key pyInt h, ?_⟩
  intro n hn
  rw [get_envvar_absent env key pyInt h] at hn
  injection hn with hn
  exact Option.noConfusion hn

/-- Claim C3 witness: `PROGRAMID` absent from an empty environment decodes to
`none`. -/
theorem C3_witness :
    get_envvar (fun _ => none) "PROGRAMID" pyInt = Except.ok none ∧
    ∀ n : Int, get_envvar (fun _ => none) "PROGRAMID" pyInt ≠ Except.ok (some n) :=
  C3_theorem (fun _ => none) "PROGRAMID" (by decide) (Or.inl rfl)

/-- Claim C4: a millisecond epoch value `v` decodes to the timestamp at
`v // 1000` (floor division) seconds since the epoch; the sub-second remainder
is discarded, so `"1700000000123"` decodes identically to `"1700000000000"`. -/
theorem C4_theorem :
    (∀ (s : String) (v : Int), pyInt s = Except.ok v →
      unixtime_str_to_datetime s = Except.ok ⟨v.fdiv 1000⟩) ∧
    unixtime_str_to_datetime "1700000000123" = unixtime_str_to_datetime "1700000000000" := by
  constructor
  · intro s v h
    simp [unixtime_str_to_datetime, h, Except.map]
  · rfl

/-- Claim C4 witness: the decode at the concrete input `"1700000000123"`. -/
theorem C4_witness :
    unixtime_str_to_datetime "1700000000123" = Except.ok ⟨Int.fdiv 1700000000123 1000⟩ :=
  C4_theorem.1 "1700000000123" 1700000000123 rfl

/-- Claim C6: a present counter renders thousands-grouped
(`1234567 ↦ "1,234,567"`), an absent counter renders as the fallback text
(`"N/A"` at every call site). -/
theorem C6_theorem :
    try_comma_int (some 1234567) "N/A" = "1,234,567" ∧
    try_comma_int none "N/A" = "N/A" ∧
    ∀ fallback : String, try_comma_int none fallback = fallback :=
  ⟨rfl, rfl, fun _ => rfl⟩

/-- Claim C5: the duration renderer produces `H:MM:SS` — hour component of
unbounded width (`t // 3600`, no day rollover), minutes and seconds always two
digits — with `3725 ↦ "1:02:05"` and `90000 ↦ "25:00:00"`. -/
theorem C5_theorem :
    readable_timedelta ⟨3725⟩ = "1:02:05" ∧
    readable_timedelta ⟨90000⟩ = "25:00:00" ∧
    ∀ t : Int, 0 ≤ t →
      readable_timedelta ⟨t⟩ =
        toString (t.fdiv 3600) ++ ":" ++ zfill 2 ((t.fdiv 60).fmod 60) ++ ":" ++
          zfill 2 (t.fmod 60) ∧
      (zfill 2 ((t.fdiv 60).fmod 60)).length = 2 ∧ (zfill 2 (t.fmod 60)).length = 2 := by
  refine ⟨rfl, rfl, ?_⟩
  intro t ht
  have hdiv : (t.fdiv 60).fdiv 60 = t.fdiv 3600 := by
    rw [Int.fdiv_eq_ediv _ (by norm_num), Int.fdiv_eq_ediv _ (by norm_num),
      Int.fdiv_eq_ediv _ (by norm_num)]
    omega
  have hm : 0 ≤ (t.fdiv 60).fmod 60 ∧ (t.fdiv 60).fmod 60 < 60 := by
    rw [Int.fmod_eq_emod _ (by norm_num)]
    omega
  have hs : 0 ≤ t.fmod 60 ∧ t.fmod 60 < 60 := by
    rw [Int.fmod_eq_emod _ (by norm_num)]
    omega
  refine ⟨?_, zfill2_length _ hm.1 hm.2, zfill2_length _ hs.1 hs.2⟩
  simp only [readable_timedelta]
  rw [hdiv]

/-- Claim C5 witness: the general rendering shape at the concrete span 3725 s. -/
theorem C5_witness :
    readable_timedelta ⟨(3725 : Int)⟩ =
      toString ((3725 : Int).fdiv 3600) ++ ":" ++
        zfill 2 (((3725 : Int).fdiv 60).fmod 60) ++ ":" ++
        zfill 2 ((3725 : Int).fmod 60) ∧
    (zfill 2 (((3725 : Int).fdiv 60).fmod 60)).length = 2 ∧
    (zfill 2 ((3725 : Int).fmod 60)).length = 2 :=
  C5_theorem.2.2 3725 (by norm_num)

/-- If the decode succeeded but any of `STARTAT`/`ENDAT`/`DURATION` decoded to
`none`, `build_payload` raises. -/
theorem build_payload_error_of_window (tz : Int) (message : String) (color : Option Int)
    (artifacts : Bool) (env : EnvMap) (ev : EnvVars)
    (hr : retrieve_envvars env = Except.ok ev)
    (hw : ev.startat = none ∨ ev.endat = none ∨ ev.duration = none) :
    build_payload tz message color artifacts env = Except.error () := by
  cases hb : build_payload tz message color artifacts env with
  | error e => cases e; rfl
  | ok p =>
    exfalso
    obtain ⟨ev', st, en, du, hr', hst, hen, hdu, _⟩ := build_payload_ok_inv _ _ _ _ _ _ hb
    rw [hr] at hr'
    injection hr' with hr'
    subst hr'
    rcases hw with hw | hw | hw
    · rw [hw] at hst; exact Option.noConfusion hst
    · rw [hw] at hen; exact Option.noConfusion hen
    · rw [hw] at hdu; exact Option.noConfusion hdu

/-- Claim C1 counterexample: with a config object lacking `webhook_url` and a
malformed `PROGRAMID` in the environment, the invocation's failure is the
environment-decode error, not the missing-key error — the wrapper runs
`fn(args)` (which reads and decodes every environment variable) before it ever
looks up `config["webhook_url"]`, so the claimed "fails before any environment
variable is read" does not hold. -/
theorem C1_counterexample :
    ((fun _ => none : String → Option String) "webhook_url" = none) ∧
    notifier_run 0 (fun _ => none)
      (fun key => if key = "PROGRAMID" then some "abc" else none)
      EventKind.reserve_new_addition = Outcome.envDecodeError ∧
    Outcome.envDecodeError ≠ Outcome.missingWebhookUrl :=
  ⟨rfl, rfl, fun h => Outcome.noConfusion h⟩

/-- Claim C1 (amended): when the configuration object lacks `webhook_url`, the
invocation exits non-zero and never posts; the failure surfaces only after
environment decoding and payload building (as either the env-decode error or
the missing-key error), not before the environment is read. -/
theorem C1_theorem : ∀ (tz : Int) (config : String → Option String) (env : EnvMap)
    (k : EventKind), config "webhook_url" = none →
    outcomeNonzeroExit (notifier_run tz config env k) = true ∧
    ∀ (url : String) (p : Payload), notifier_run tz config env k ≠ Outcome.posted url p := by
  intro tz config env k hc
  cases hb : build_payload tz (eventMessage k) (eventColor k) (eventArtifacts k) env with
  | error e =>
    cases e
    rw [notifier_run_of_build_error tz config env k hb]
    exact ⟨rfl, fun url p h => Outcome.noConfusion h⟩
  | ok p0 =>
    have hrun : notifier_run tz config env k = Outcome.missingWebhookUrl := by
      unfold notifier_run notifier_fn
      rw [hb]
      simp [Except.map, hc]
    rw [hrun]
    exact ⟨rfl, fun url p h => Outcome.noConfusion h⟩

/-- Claim C1 witness: empty config, empty environment, `reserve_deleted`. -/
theorem C1_witness :
    outcomeNonzeroExit (notifier_run 0 (fun _ => none) (fun _ => none)
      EventKind.reserve_deleted) = true ∧
    ∀ (url : String) (p : Payload),
      notifier_run 0 (fun _ => none) (fun _ => none) EventKind.reserve_deleted ≠
        Outcome.posted url p :=
  C1_theorem 0 (fun _ => none) (fun _ => none) EventKind.reserve_deleted rfl

/-- Claim C7: every successfully built payload carries the two base fields
(channel, broadcast window) plus, exactly for `recording_finish` and
`recording_failed`, the three artifact fields (recording path, log path,
error/drop/scramble counters). -/
theorem C7_theorem : ∀ (tz : Int) (env : EnvMap) (k : EventKind) (p : Payload),
    build_payload tz (eventMessage k) (eventColor k) (eventArtifacts k) env = Except.ok p →
    ∀ e ∈ p.embeds, e.fields.map PayloadField.name =
      if k = EventKind.recording_finish ∨ k = EventKind.recording_failed then
        ["チャンネル", "放送時間帯", "録画ファイル", "ログファイル", "エラー/ドロップ/スクランブル"]
      else ["チャンネル", "放送時間帯"] := by
  intro tz env k p hb e he
  obtain ⟨ev, st, en, du, hr, hst, hen, hdu, hp⟩ := build_payload_ok_inv _ _ _ _ _ _ hb
  subst hp
  simp only [List.mem_singleton] at he
  subst he
  cases k <;> simp [eventArtifacts]

/-- Claim C7 witness: concrete payloads for `recording_finish` (five fields)
and `recording_start` (two fields) on the sample environment. -/
theorem C7_witness :
    (∀ e ∈ payloadFinishW.embeds, e.fields.map PayloadField.name =
      ["チャンネル", "放送時間帯", "録画ファイル", "ログファイル", "エラー/ドロップ/スクランブル"]) ∧
    (∀ e ∈ payloadStartW.embeds, e.fields.map PayloadField.name =
      ["チャンネル", "放送時間帯"]) := by
  constructor
  · have h := C7_theorem 0 envW EventKind.recording_finish payloadFinishW rfl
    simpa using h
  · have h := C7_theorem 0 envW EventKind.recording_start payloadStartW rfl
    simpa using h

/-- Claim C9: when `NAME` is absent or `"null"`, payload building is not
hindered, and the title renders the literal text `None` after the event
label. -/
theorem C9_theorem : ∀ (tz : Int) (env : EnvMap) (k : EventKind) (p : Payload),
    (env "NAME" = none ∨ env "NAME" = some "null") →
    build_payload tz (eventMessage k) (eventColor k) (eventArtifacts k) env = Except.ok p →
    ∀ e ∈ p.embeds, e.title = eventMessage k ++ ": None" := by
  intro tz env k p habs hb e he
  obtain ⟨ev, st, en, du, hr, hst, hen, hdu, hp⟩ := build_payload_ok_inv _ _ _ _ _ _ hb
  obtain ⟨_, _, _, _, _, _, _, _, h9, _, _, _, _, _, _, _⟩ := retrieve_envvars_ok_inv env ev hr
  have hname : ev.name = none := by
    rw [get_envvar_absent env "NAME" strCast habs] at h9
    injection h9 with h9
    exact h9.symm
  subst hp
  simp only [List.mem_singleton] at he
  subst he
  show eventMessage k ++ ": " ++ pyStr ev.name = eventMessage k ++ ": None"
  rw [hname]
  rw [String.append_assoc]
  rfl

/-- Claim C9 witness: `recording_start` on an environment without `NAME`
still builds a nonempty payload, and its title ends in `": None"`. -/
theorem C9_witness :
    (∀ e ∈ payloadNoNameW.embeds,
      e.title = eventMessage EventKind.recording_start ++ ": None") ∧
    payloadNoNameW.embeds ≠ [] :=
  ⟨C9_theorem 0 env_noname EventKind.recording_start payloadNoNameW (Or.inl rfl) rfl,
   by decide⟩

/-- Claim C10: if any of `STARTAT`, `ENDAT`, `DURATION` is absent or `"null"`,
building the payload raises and nothing is ever posted. -/
theorem C10_theorem : ∀ (tz : Int) (env : EnvMap) (k : EventKind) (key : String),
    key ∈ ["STARTAT", "ENDAT", "DURATION"] →
    (env key = none ∨ env key = some "null") →
    build_payload tz (eventMessage k) (eventColor k) (eventArtifacts k) env =
      Except.error () ∧
    ∀ (config : String → Option String) (url : String) (p : Payload),
      notifier_run tz config env k ≠ Outcome.posted url p := by
  intro tz env k key hk habs
  have hb : build_payload tz (eventMessage k) (eventColor k) (eventArtifacts k) env =
      Except.error () := by
    cases hr : retrieve_envvars env with
    | error e => cases e; exact build_payload_error_of_retrieve _ _ _ _ _ hr
    | ok ev =>
      obtain ⟨_, _, _, _, _, h6, h7, h8, _, _, _, _, _, _, _, _⟩ :=
        retrieve_envvars_ok_inv env ev hr
      refine build_payload_error_of_window _ _ _ _ _ ev hr ?_
      simp only [List.mem_cons, List.not_mem_nil, or_false] at hk
      rcases hk with rfl | rfl | rfl
      · left
        rw [get_envvar_absent env "STARTAT" unixtime_str_to_datetime habs] at h6
        injection h6 with h6
        exact h6.symm
      · right; left
        rw [get_envvar_absent env "ENDAT" unixtime_str_to_datetime habs] at h7
        injection h7 with h7
        exact h7.symm
      · right; right
        rw [get_envvar_absent env "DURATION" milliseconds_str_to_timedelta habs] at h8
        injection h8 with h8
        exact h8.symm
  refine ⟨hb, ?_⟩
  intro config url p
  rw [notifier_run_of_build_error tz config env k hb]
  exact fun h => Outcome.noConfusion h

/-- Claim C10 witness: an empty environment (so `STARTAT` is absent) makes
`reserve_update` building fail and nothing is posted. -/
theorem C10_witness :
    build_payload 0 (eventMessage EventKind.reserve_update)
      (eventColor EventKind.reserve_update) (eventArtifacts EventKind.reserve_update)
      (fun _ => none) = Except.error () ∧
    ∀ (config : String → Option String) (url : String) (p : Payload),
      notifier_run 0 config (fun _ => none) EventKind.reserve_update ≠
        Outcome.posted url p :=
  C10_theorem 0 (fun _ => none) EventKind.reserve_update "STARTAT" (by decide) (Or.inl rfl)

/-- Claim C8: a numeric environment variable holding non-numeric text other
than `"null"` makes environment decoding raise, the invocation end in the
fatal env-decode outcome (non-zero exit), and no payload is ever posted. -/
theorem C8_theorem : ∀ (env : EnvMap) (k : EventKind) (key : String) (s : String),
    key ∈ numeric_env_keys → env key = some s → s ≠ "null" →
    pyInt s = Except.error () →
    retrieve_envvars env = Except.error () ∧
    (∀ tz : Int, build_payload tz (eventMessage k) (eventColor k) (eventArtifacts k) env =
      Except.error ()) ∧
    (∀ (tz : Int) (config : String → Option String),
      notifier_run tz config env k = Outcome.envDecodeError ∧
      outcomeNonzeroExit (notifier_run tz config env k) = true) ∧
    ∀ (tz : Int) (config : String → Option String) (url : String) (p : Payload),
      notifier_run tz config env k ≠ Outcome.posted url p := by
  intro env k key s hk he hn hp
  have hr := retrieve_envvars_error_of_numeric env key s hk he hn hp
  have hb : ∀ tz : Int, build_payload tz (eventMessage k) (eventColor k)
      (eventArtifacts k) env = Except.error () :=
    fun tz => build_payload_error_of_retrieve tz _ _ _ env hr
  refine ⟨hr, hb, ?_, ?_⟩
  · intro tz config
    rw [notifier_run_of_build_error tz config env k (hb tz)]
    exact ⟨rfl, rfl⟩
  · intro tz config url p
    rw [notifier_run_of_build_error tz config env k (hb tz)]
    exact fun h => Outcome.noConfusion h

/-- Claim C8 witness: `DROP_CNT=12a` aborts decoding for `recording_finish`. -/
theorem C8_witness :
    retrieve_envvars (fun key => if key = "DROP_CNT" then some "12a" else none) =
      Except.error () ∧
    (∀ tz : Int, build_payload tz (eventMessage EventKind.recording_finish)
      (eventColor EventKind.recording_finish) (eventArtifacts EventKind.recording_finish)
      (fun key => if key = "DROP_CNT" then some "12a" else none) = Except.error ()) ∧
    (∀ (tz : Int) (config : String → Option String),
      notifier_run tz config (fun key => if key = "DROP_CNT" then some "12a" else none)
        EventKind.recording_finish = Outcome.envDecodeError ∧
      outcomeNonzeroExit (notifier_run tz config
        (fun key => if key = "DROP_CNT" then some "12a" else none)
        EventKind.recording_finish) = true) ∧
    ∀ (tz : Int) (config : String → Option String) (url : String) (p : Payload),
      notifier_run tz config (fun key => if key = "DROP_CNT" then some "12a" else none)
        EventKind.recording_finish ≠ Outcome.posted url p :=
  C8_theorem (fun key => if key = "DROP_CNT" then some "12a" else none)
    EventKind.recording_finish "DROP_CNT" "12a" (by decide) rfl (by decide) rfl
